import Mathlib

/-!
Shallow embedding of the Lead Record Store of `lead-api` (files
`database.py` and `main.py`) and verification of its specification.

Modelling conventions:
* A timestamp (Python `datetime`, stored with microsecond precision) is a
  `Nat`: the number of microseconds since 0001-01-01T00:00:00 in the
  proleptic Gregorian calendar (Python's own `datetime.min`).
* The database table `leads` is a list of `Lead` rows in insertion order,
  together with the next auto-increment id (`DB`).
* `datetime.utcnow()` is passed in explicitly as a `now : Nat` argument.
* SQL `LIKE` is modelled with SQLite semantics (the default backend,
  `sqlite:///./leads.db`): `%` matches any run, `_` any single character,
  other characters match ASCII-case-insensitively.
* Python `str.isdigit` is modelled by ASCII `Char.isDigit`, and
  `datetime.strptime(s, "%Y-%m-%d")` by `parseDate` below, which follows
  CPython's `_strptime` regex fragments for `%Y`, `%m`, `%d` and the
  constructor's calendar validation.
* `raise HTTPException(status_code, detail)` becomes
  `Except.error (ApiError.http status detail)`.
-/

/-- Character comparison used by SQLite `LIKE`: ASCII-case-insensitive. -/
def charLikeEq (p c : Char) : Bool := p.toLower == c.toLower

/-- Run a boolean test on every suffix of a list, succeeding if any suffix
passes. -/
def suffixesMatch (f : List Char → Bool) : List Char → Bool
  | [] => f []
  | c :: cs => f (c :: cs) || suffixesMatch f cs

/-- SQLite `LIKE` pattern matching: `%` matches any (possibly empty) run of
characters, `_` matches exactly one character, and any other pattern
character matches a single ASCII-case-insensitively equal character. -/
def likeMatch : List Char → List Char → Bool
  | [], s => s.isEmpty
  | p :: ps, s =>
    if p == '%' then suffixesMatch (likeMatch ps) s
    else
      match s with
      | [] => false
      | c :: cs => if p == '_' then likeMatch ps cs else charLikeEq p c && likeMatch ps cs

/-- String form of `likeMatch`, as used by `column.like(pattern)`. -/
def likeStr (pat hay : String) : Bool := likeMatch pat.data hay.data

/-- Test whether the needle is an ASCII-case-insensitive starting segment of
the haystack. -/
def startsCI : List Char → List Char → Bool
  | [], _ => true
  | _ :: _, [] => false
  | a :: as, b :: bs => charLikeEq a b && startsCI as bs

/-- Case-insensitive substring test, written from the specification's words:
the needle occurs (ASCII-case-insensitively) somewhere inside the haystack. -/
def containsCI (n h : List Char) : Bool := suffixesMatch (startsCI n) h

/-- Phone normalization from the source:
`''.join(filter(str.isdigit, phone))`. -/
def cleanPhone (s : String) : String := String.mk (s.data.filter Char.isDigit)

/-- Numeric value of an ASCII digit character. -/
def digitVal (c : Char) : Nat := c.toNat - 48

/-- Gregorian leap-year test. -/
def isLeap (y : Nat) : Bool := (y % 4 == 0 && y % 100 != 0) || (y % 400 == 0)

/-- Number of days in a month of a given year. -/
def daysInMonth (y m : Nat) : Nat :=
  if m == 2 then (if isLeap y then 29 else 28)
  else if m == 4 || m == 6 || m == 9 || m == 11 then 30
  else 31

/-- Month fragment of CPython's strptime: regex `1[0-2]|0[1-9]|[1-9]`,
returning the parsed month and the unconsumed characters. -/
def parseMonth : List Char → Option (Nat × List Char)
  | [] => none
  | '1' :: rest =>
    match rest with
    | c :: rest2 =>
      if c.isDigit && digitVal c ≤ 2 then some (10 + digitVal c, rest2) else some (1, rest)
    | [] => some (1, [])
  | '0' :: rest =>
    match rest with
    | c :: rest2 => if c.isDigit && 1 ≤ digitVal c then some (digitVal c, rest2) else none
    | [] => none
  | c :: rest => if c.isDigit && 1 ≤ digitVal c then some (digitVal c, rest) else none

/-- Day fragment of CPython's strptime: regex `3[01]|[12]\d|0[1-9]|[1-9]`. -/
def parseDay : List Char → Option (Nat × List Char)
  | [] => none
  | '3' :: rest =>
    match rest with
    | c :: rest2 => if c == '0' || c == '1' then some (30 + digitVal c, rest2) else some (3, rest)
    | [] => some (3, [])
  | '0' :: rest =>
    match rest with
    | c :: rest2 => if c.isDigit && 1 ≤ digitVal c then some (digitVal c, rest2) else none
    | [] => none
  | c :: rest =>
    if c == '1' || c == '2' then
      match rest with
      | c2 :: rest2 =>
        if c2.isDigit then some (10 * digitVal c + digitVal c2, rest2)
        else if 1 ≤ digitVal c && c.isDigit then some (digitVal c, rest)
        else none
      | [] => if c.isDigit then some (digitVal c, []) else none
    else if c.isDigit && 1 ≤ digitVal c then some (digitVal c, rest) else none

/-- Model of `datetime.strptime(s, "%Y-%m-%d")`: four year digits, a dash,
the month regex, a dash, the day regex, no trailing characters, and the
`datetime` constructor's validation (year at least 1, day within the month).
Returns `(year, month, day)` on success and `none` on `ValueError`. -/
def parseDate (s : String) : Option (Nat × Nat × Nat) :=
  match s.data with
  | y1 :: y2 :: y3 :: y4 :: '-' :: rest =>
    if y1.isDigit && y2.isDigit && y3.isDigit && y4.isDigit then
      let y := 1000 * digitVal y1 + 100 * digitVal y2 + 10 * digitVal y3 + digitVal y4
      match parseMonth rest with
      | some (m, rest2) =>
        match rest2 with
        | '-' :: rest3 =>
          match parseDay rest3 with
          | some (d, []) => if 1 ≤ y && d ≤ daysInMonth y m then some (y, m, d) else none
          | _ => none
        | _ => none
      | none => none
    else none
  | _ => none

/-- Days from 0001-01-01 to the given proleptic Gregorian date
(Howard Hinnant's civil-days algorithm, shifted to the year-1 epoch). -/
def daysFromCivil (y m d : Nat) : Nat :=
  let yAdj := if m ≤ 2 then y - 1 else y
  let era := yAdj / 400
  let yoe := yAdj % 400
  let mp := if 2 < m then m - 3 else m + 9
  let doy := (153 * mp + 2) / 5 + d - 1
  let doe := yoe * 365 + yoe / 4 - yoe / 100 + doy
  era * 146097 + doe - 306

/-- Microseconds per day. -/
def usPerDay : Nat := 86400000000

/-- Timestamp of midnight (00:00:00) at the start of a calendar date; this is
the value `datetime.strptime(s, "%Y-%m-%d")` denotes. -/
def dateStartUs (y m d : Nat) : Nat := daysFromCivil y m d * usPerDay

/-- Inverse of `daysFromCivil`: the calendar date of a day number. -/
def civilFromDays (days : Nat) : Nat × Nat × Nat :=
  let z := days + 306
  let era := z / 146097
  let doe := z % 146097
  let yoe := (doe - doe / 1460 + doe / 36524 - doe / 146096) / 365
  let y := yoe + era * 400
  let doy := doe - (365 * yoe + yoe / 4 - yoe / 100)
  let mp := (5 * doy + 2) / 153
  let d := doy - (153 * mp + 2) / 5 + 1
  let m := if mp < 10 then mp + 3 else mp - 9
  (if m ≤ 2 then y + 1 else y, m, d)

/-- Left-pad a number to two digits. -/
def pad2 (n : Nat) : String := if n < 10 then "0" ++ toString n else toString n

/-- Left-pad a number to four digits. -/
def pad4 (n : Nat) : String :=
  if n < 10 then "000" ++ toString n
  else if n < 100 then "00" ++ toString n
  else if n < 1000 then "0" ++ toString n
  else toString n

/-- Model of `dt.strftime('%Y-%m-%d %H:%M:%S')` on a microsecond timestamp. -/
def formatTimestamp (ts : Nat) : String :=
  let secs := ts / 1000000
  let rem := secs % 86400
  let ymd := civilFromDays (secs / 86400)
  pad4 ymd.1 ++ "-" ++ pad2 ymd.2.1 ++ "-" ++ pad2 ymd.2.2 ++ " " ++
    pad2 (rem / 3600) ++ ":" ++ pad2 (rem % 3600 / 60) ++ ":" ++ pad2 (rem % 60)

/-- Request body of `POST /api/leads` (pydantic model `LeadCreate`). -/
structure LeadCreate where
  first_name : String
  last_name : String
  gender : Option String := none
  date_of_birth : Option String := none
  phone : String
  mobile_phone : Option String := none
  email : Option String := none
  street : Option String := none
  city : Option String := none
  state : Option String := none
  postal_code : Option String := none
  primary_insurance : Option String := none
  total_med_count : Option Int := none
  list_affiliate_name : Option String := none
  salesforce_status : Option String := some "success"
deriving DecidableEq

/-- Row of the `leads` table (SQLAlchemy model `Lead` in `database.py`). -/
structure Lead where
  id : Nat
  first_name : String
  last_name : String
  gender : Option String
  date_of_birth : Option String
  phone : String
  mobile_phone : Option String
  email : Option String
  street : Option String
  city : Option String
  state : Option String
  postal_code : Option String
  primary_insurance : Option String
  total_med_count : Option Int
  list_affiliate_name : Option String
  submitted_at : Nat
  salesforce_status : Option String
  signed_up : Bool
  signed_up_at : Option Nat
  callback_scheduled : Bool
  callback_scheduled_at : Option Nat
deriving DecidableEq

/-- Database state: the `leads` table in insertion order plus the next
auto-increment id. -/
structure DB where
  rows : List Lead
  nextId : Nat
deriving DecidableEq

/-- Error raised by an endpoint (`HTTPException(status_code, detail)`). -/
inductive ApiError where
  | http (status : Nat) (detail : String)
deriving DecidableEq

/-- Response of `GET /api/check/{phone}` (pydantic model `CheckResponse`). -/
structure CheckResponse where
  exists_ : Bool
  message : String
deriving DecidableEq

/-- Response of `GET /api/leads`. -/
structure LeadsPage where
  leads : List Lead
  total : Nat
  skip : Nat
  limit : Nat
deriving DecidableEq

/-- Endpoint `GET /api/check/{phone}` (`check_phone` in `main.py`). -/
def check_phone (db : DB) (phone : String) : CheckResponse :=
  match db.rows.find? (fun r => r.phone == cleanPhone phone) with
  | some l =>
    { exists_ := true
      message := "Lead with phone " ++ phone ++ " was already submitted on " ++
        formatTimestamp l.submitted_at }
  | none => { exists_ := false, message := "Phone number not found. Safe to submit." }

/-- Row inserted by `create_lead`: the phone is stored normalized, the
submission timestamp is the current clock, the flag columns take their
schema defaults. -/
def newLeadRow (id now : Nat) (input : LeadCreate) : Lead :=
  { id := id
    first_name := input.first_name
    last_name := input.last_name
    gender := input.gender
    date_of_birth := input.date_of_birth
    phone := cleanPhone input.phone
    mobile_phone := input.mobile_phone
    email := input.email
    street := input.street
    city := input.city
    state := input.state
    postal_code := input.postal_code
    primary_insurance := input.primary_insurance
    total_med_count := input.total_med_count
    list_affiliate_name := input.list_affiliate_name
    submitted_at := now
    salesforce_status := input.salesforce_status
    signed_up := false
    signed_up_at := none
    callback_scheduled := false
    callback_scheduled_at := none }

/-- Endpoint `POST /api/leads` (`create_lead` in `main.py`): normalize the
phone, fail with a 400 duplicate error carrying the original phone if a row
with the normalized phone exists, otherwise insert a fresh row. -/
def create_lead (db : DB) (now : Nat) (input : LeadCreate) : Except ApiError (DB × Lead) :=
  match db.rows.find? (fun r => r.phone == cleanPhone input.phone) with
  | some _ => .error (.http 400 ("Lead with phone " ++ input.phone ++ " already exists"))
  | none =>
    .ok ({ rows := db.rows ++ [newLeadRow db.nextId now input], nextId := db.nextId + 1 },
      newLeadRow db.nextId now input)

/-- Replace the first list element satisfying the test, applying the update
function to it; the rest of the list is unchanged. -/
def replaceFirst (p : Lead → Bool) (f : Lead → Lead) : List Lead → List Lead
  | [] => []
  | r :: rs => if p r then f r :: rs else r :: replaceFirst p f rs

/-- Row update performed by `toggle_signup`: flip the flag and set or clear
the paired timestamp. -/
def toggleSignupRow (now : Nat) (r : Lead) : Lead :=
  { r with signed_up := !r.signed_up
           signed_up_at := if !r.signed_up then some now else none }

/-- Row update performed by `toggle_callback`. -/
def toggleCallbackRow (now : Nat) (r : Lead) : Lead :=
  { r with callback_scheduled := !r.callback_scheduled
           callback_scheduled_at := if !r.callback_scheduled then some now else none }

/-- Store state after `toggle_signup` commits. -/
def toggledSignupStore (db : DB) (i now : Nat) : DB :=
  { db with rows := replaceFirst (fun r => r.id == i) (toggleSignupRow now) db.rows }

/-- Store state after `toggle_callback` commits. -/
def toggledCallbackStore (db : DB) (i now : Nat) : DB :=
  { db with rows := replaceFirst (fun r => r.id == i) (toggleCallbackRow now) db.rows }

/-- Endpoint `PATCH /api/leads/{id}/signup` (`toggle_signup` in `main.py`). -/
def toggle_signup (db : DB) (i now : Nat) : Except ApiError (DB × Lead) :=
  match db.rows.find? (fun r => r.id == i) with
  | none => .error (.http 404 "Lead not found")
  | some l => .ok (toggledSignupStore db i now, toggleSignupRow now l)

/-- Endpoint `PATCH /api/leads/{id}/callback` (`toggle_callback` in
`main.py`). -/
def toggle_callback (db : DB) (i now : Nat) : Except ApiError (DB × Lead) :=
  match db.rows.find? (fun r => r.id == i) with
  | none => .error (.http 404 "Lead not found")
  | some l => .ok (toggledCallbackStore db i now, toggleCallbackRow now l)

/-- Endpoint `DELETE /api/leads/{id}` (`delete_lead` in `main.py`): hard
removal of the row with the given id. -/
def delete_lead (db : DB) (i : Nat) : Except ApiError (DB × Nat) :=
  match db.rows.find? (fun r => r.id == i) with
  | none => .error (.http 404 "Lead not found")
  | some _ => .ok ({ db with rows := db.rows.eraseP (fun r => r.id == i) }, i)

/-- Search condition of `get_leads`: the `%search%` pattern applied with SQL
`LIKE` to phone, first name, last name and email, joined by OR; a NULL email
contributes no match. -/
def searchHit (s : String) (r : Lead) : Bool :=
  likeStr ("%" ++ s ++ "%") r.phone ||
  likeStr ("%" ++ s ++ "%") r.first_name ||
  likeStr ("%" ++ s ++ "%") r.last_name ||
  (match r.email with
   | some e => likeStr ("%" ++ s ++ "%") e
   | none => false)

/-- Filter pipeline of `get_leads` (`main.py` lines 171-206), before counting
and pagination: search, start date, end date, signed-up and
callback-scheduled filters applied in order.  A `None` or empty string
parameter is falsy in Python and skips its filter; an unparsable date string
is swallowed (`except ValueError: pass`) and skips its filter; the end-date
bound is moved to 23:59:59 (microsecond 0) of that day. -/
def queryRows (db : DB) (search start_date end_date : Option String)
    (signed_up callback_scheduled : Option Bool) : List Lead :=
  let q1 := match search with
    | some s => if s == "" then db.rows else db.rows.filter (searchHit s)
    | none => db.rows
  let q2 := match start_date with
    | some s =>
      if s == "" then q1
      else
        match parseDate s with
        | some ymd => q1.filter (fun r => decide (dateStartUs ymd.1 ymd.2.1 ymd.2.2 ≤ r.submitted_at))
        | none => q1
    | none => q1
  let q3 := match end_date with
    | some s =>
      if s == "" then q2
      else
        match parseDate s with
        | some ymd =>
          q2.filter (fun r => decide (r.submitted_at ≤ dateStartUs ymd.1 ymd.2.1 ymd.2.2 + 86399000000))
        | none => q2
    | none => q2
  let q4 := match signed_up with
    | some b => q3.filter (fun r => r.signed_up == b)
    | none => q3
  match callback_scheduled with
  | some b => q4.filter (fun r => r.callback_scheduled == b)
  | none => q4

/-- Rows ordered newest first (`order_by(desc(Lead.submitted_at))`); ties keep
their relative order, which the source leaves unspecified. -/
def sortByNewest (rows : List Lead) : List Lead :=
  rows.mergeSort (fun a b => decide (b.submitted_at ≤ a.submitted_at))

/-- Endpoint `GET /api/leads` (`get_leads` in `main.py`): apply the filters,
count the matches before pagination, then order newest first and paginate. -/
def get_leads (db : DB) (skip limit : Nat) (search start_date end_date : Option String)
    (signed_up callback_scheduled : Option Bool) : LeadsPage :=
  let matched := queryRows db search start_date end_date signed_up callback_scheduled
  { leads := ((sortByNewest matched).drop skip).take limit
    total := matched.length
    skip := skip
    limit := limit }

/-- States of the store reachable from an empty table by the mutating
endpoints. -/
inductive Reachable : DB → Prop where
  | empty : Reachable { rows := [], nextId := 1 }
  | create (db : DB) (now : Nat) (input : LeadCreate) (db2 : DB) (l : Lead) :
      Reachable db → create_lead db now input = .ok (db2, l) → Reachable db2
  | toggleS (db : DB) (i now : Nat) (db2 : DB) (l : Lead) :
      Reachable db → toggle_signup db i now = .ok (db2, l) → Reachable db2
  | toggleC (db : DB) (i now : Nat) (db2 : DB) (l : Lead) :
      Reachable db → toggle_callback db i now = .ok (db2, l) → Reachable db2
  | del (db : DB) (i : Nat) (db2 : DB) (n : Nat) :
      Reachable db → delete_lead db i = .ok (db2, n) → Reachable db2

/-- Flag and timestamp pairing invariant of a row, from the specification:
`signed_up_at` is non-null exactly when `signed_up` is true, and likewise for
the callback pair. -/
def leadInvB (r : Lead) : Bool :=
  (r.signed_up_at.isSome == r.signed_up) && (r.callback_scheduled_at.isSome == r.callback_scheduled)

/-- Search predicate written from the specification's words: the search
string occurs as a case-insensitive substring of phone, first name, last
name or email (a missing email matches nothing). -/
def specSearchHit (s : String) (r : Lead) : Bool :=
  containsCI s.data r.phone.data ||
  containsCI s.data r.first_name.data ||
  containsCI s.data r.last_name.data ||
  (match r.email with
   | some e => containsCI s.data e.data
   | none => false)

/-- Day-membership predicate written from the specification's words: the
timestamp falls anywhere within the calendar day, sub-second instants
included. -/
def inCalendarDay (y m d : Nat) (r : Lead) : Bool :=
  decide (dateStartUs y m d ≤ r.submitted_at) && decide (r.submitted_at < dateStartUs y m d + usPerDay)

/-- Empty store, the startup state. -/
def emptyDB : DB := { rows := [], nextId := 1 }

/-- Minimal create request: required fields only, other fields at their
pydantic defaults. -/
def sampleInput (p : String) : LeadCreate :=
  { first_name := "Jane", last_name := "Doe", phone := p }

/-- Row literal used by concrete examples. -/
def sampleLead (i : Nat) (ph fn ln : String) (ts : Nat) : Lead :=
  { id := i
    first_name := fn
    last_name := ln
    gender := none
    date_of_birth := none
    phone := ph
    mobile_phone := none
    email := none
    street := none
    city := none
    state := none
    postal_code := none
    primary_insurance := none
    total_med_count := none
    list_affiliate_name := none
    submitted_at := ts
    salesforce_status := some "success"
    signed_up := false
    signed_up_at := none
    callback_scheduled := false
    callback_scheduled_at := none }

/-- Store holding the single lead created from phone `(555) 123-4567` at
time 10. -/
def dbJane : DB := { rows := [sampleLead 1 "5551234567" "Jane" "Doe" 10], nextId := 2 }

/-- Store holding one lead created from a phone with no digit characters:
its stored (normalized) phone is the empty string. -/
def dbNoDigits : DB := { rows := [sampleLead 1 "" "Jane" "Doe" 4], nextId := 2 }

/-- Store with one lead submitted one microsecond after 23:59:59 of
2024-01-01: still inside that calendar day, but past the query's end bound. -/
def dbLate : DB :=
  { rows := [sampleLead 1 "5550001111" "Ann" "Lee" (dateStartUs 2024 1 1 + 86399000001)]
    nextId := 2 }

/-- Store with three leads at the edges of 2024-01-01: midnight, the last
whole second, and one microsecond past the end bound. -/
def dbDay : DB :=
  { rows := [sampleLead 1 "111" "A" "B" (dateStartUs 2024 1 1),
             sampleLead 2 "222" "C" "D" (dateStartUs 2024 1 1 + 86399000000),
             sampleLead 3 "333" "E" "F" (dateStartUs 2024 1 1 + 86399000001)]
    nextId := 4 }

/-- Lead that is already signed up. -/
def leadSue : Lead :=
  { sampleLead 2 "222" "Sue" "Ray" 6 with signed_up := true, signed_up_at := some 6 }

/-- Store with two leads, the second already signed up. -/
def dbTwo : DB := { rows := [sampleLead 1 "111" "Al" "Bo" 5, leadSue], nextId := 3 }

/-! Helper lemmas about the embedding. -/

theorem suffixesMatch_congr (f g : List Char → Bool) (hfg : ∀ x, f x = g x) :
    ∀ l, suffixesMatch f l = suffixesMatch g l := by
  intro l
  induction l with
  | nil => simp [suffixesMatch, hfg]
  | cons c cs ih => simp [suffixesMatch, hfg, ih]

theorem suffixesMatch_isEmpty : ∀ s : List Char, suffixesMatch (fun x => x.isEmpty) s = true := by
  intro s
  induction s with
  | nil => rfl
  | cons c cs ih => simp [suffixesMatch, ih]

theorem suffixesMatch_likeMatch_nil (s : List Char) : suffixesMatch (likeMatch []) s = true := by
  rw [suffixesMatch_congr (likeMatch []) (fun x => x.isEmpty) (fun x => rfl) s]
  exact suffixesMatch_isEmpty s

theorem likeMatch_lit_percent (lit : List Char) (hw : ∀ c ∈ lit, c ≠ '%' ∧ c ≠ '_') :
    ∀ hay, likeMatch (lit ++ ['%']) hay = startsCI lit hay := by
  induction lit with
  | nil =>
    intro hay
    simp [likeMatch, startsCI, suffixesMatch_isEmpty, suffixesMatch_likeMatch_nil]
  | cons p ps ih =>
    intro hay
    have hp := hw p (List.mem_cons_self p ps)
    have ihw : ∀ c ∈ ps, c ≠ '%' ∧ c ≠ '_' := fun c hc => hw c (List.mem_cons_of_mem _ hc)
    cases hay with
    | nil => simp [likeMatch, startsCI, hp.1]
    | cons c cs => simp [likeMatch, startsCI, hp.1, hp.2, ih ihw]

theorem likeMatch_contains (s : List Char) (hw : ∀ c ∈ s, c ≠ '%' ∧ c ≠ '_')
    (hay : List Char) : likeMatch ('%' :: (s ++ ['%'])) hay = containsCI s hay := by
  simp only [likeMatch, containsCI, beq_self_eq_true, if_true]
  exact suffixesMatch_congr _ _ (fun x => likeMatch_lit_percent s hw x) hay

theorem searchHit_eq_spec (s : String) (hw : ∀ c ∈ s.data, c ≠ '%' ∧ c ≠ '_') (r : Lead) :
    searchHit s r = specSearchHit s r := by
  have hpat : ("%" ++ s ++ "%").data = '%' :: (s.data ++ ['%']) := by
    simp [String.data_append]
  have hlike : ∀ hay : String, likeStr ("%" ++ s ++ "%") hay = containsCI s.data hay.data := by
    intro hay
    rw [likeStr, hpat, likeMatch_contains s.data hw]
  cases he : r.email with
  | none => simp [searchHit, specSearchHit, hlike, he]
  | some e => simp [searchHit, specSearchHit, hlike, he]

theorem find?_eq_getElem_findIdx (p : Lead → Bool) :
    ∀ rows : List Lead, rows.find? p = rows[rows.findIdx p]? := by
  intro rows
  induction rows with
  | nil => rfl
  | cons r rs ih =>
    cases hp : p r with
    | true => simp [List.find?_cons, hp, List.findIdx_cons]
    | false => simp [List.find?_cons, hp, List.findIdx_cons, ih]

theorem replaceFirst_take (p : Lead → Bool) (f : Lead → Lead) :
    ∀ rows : List Lead,
      (replaceFirst p f rows).take (rows.findIdx p) = rows.take (rows.findIdx p) := by
  intro rows
  induction rows with
  | nil => rfl
  | cons r rs ih =>
    cases hp : p r with
    | true => simp [replaceFirst, hp, List.findIdx_cons]
    | false => simp [replaceFirst, hp, List.findIdx_cons, ih]

theorem replaceFirst_drop (p : Lead → Bool) (f : Lead → Lead) :
    ∀ rows : List Lead,
      (replaceFirst p f rows).drop (rows.findIdx p + 1) = rows.drop (rows.findIdx p + 1) := by
  intro rows
  induction rows with
  | nil => rfl
  | cons r rs ih =>
    cases hp : p r with
    | true => simp [replaceFirst, hp, List.findIdx_cons]
    | false => simp [replaceFirst, hp, List.findIdx_cons, ih]

theorem replaceFirst_getElem (p : Lead → Bool) (f : Lead → Lead) :
    ∀ (rows : List Lead) (l : Lead), rows.find? p = some l →
      (replaceFirst p f rows)[rows.findIdx p]? = some (f l) := by
  intro rows
  induction rows with
  | nil => intro l h; simp [List.find?] at h
  | cons r rs ih =>
    intro l h
    cases hp : p r with
    | true =>
      rw [List.find?_cons, hp] at h
      injection h with h2
      subst h2
      simp [replaceFirst, hp, List.findIdx_cons]
    | false =>
      rw [List.find?_cons, hp] at h
      simp [replaceFirst, hp, List.findIdx_cons, ih l h]

theorem replaceFirst_find? (p : Lead → Bool) (f : Lead → Lead)
    (hpf : ∀ x, p (f x) = p x) :
    ∀ (rows : List Lead) (l : Lead), rows.find? p = some l →
      (replaceFirst p f rows).find? p = some (f l) := by
  intro rows
  induction rows with
  | nil => intro l h; simp [List.find?] at h
  | cons r rs ih =>
    intro l h
    cases hp : p r with
    | true =>
      rw [List.find?_cons, hp] at h
      injection h with h2
      subst h2
      simp [replaceFirst, hp, List.find?_cons, hpf]
    | false =>
      rw [List.find?_cons, hp] at h
      simp [replaceFirst, hp, List.find?_cons, ih l h]

theorem replaceFirst_all (q p : Lead → Bool) (f : Lead → Lead)
    (hf : ∀ x, q x = true → q (f x) = true) :
    ∀ rows : List Lead, rows.all q = true → (replaceFirst p f rows).all q = true := by
  intro rows
  induction rows with
  | nil => intro h; exact h
  | cons r rs ih =>
    intro h
    rw [List.all_cons, Bool.and_eq_true] at h
    cases hp : p r with
    | true => simp [replaceFirst, hp, hf r h.1, h.2]
    | false => simp [replaceFirst, hp, h.1, ih h.2]

theorem leadInvB_toggleSignupRow (now : Nat) (x : Lead) (h : leadInvB x = true) :
    leadInvB (toggleSignupRow now x) = true := by
  rw [leadInvB, Bool.and_eq_true] at h ⊢
  refine ⟨?_, ?_⟩
  · cases hs : x.signed_up <;> simp [toggleSignupRow, hs]
  · simpa [toggleSignupRow] using h.2

theorem leadInvB_toggleCallbackRow (now : Nat) (x : Lead) (h : leadInvB x = true) :
    leadInvB (toggleCallbackRow now x) = true := by
  rw [leadInvB, Bool.and_eq_true] at h ⊢
  refine ⟨?_, ?_⟩
  · simpa [toggleCallbackRow] using h.1
  · cases hs : x.callback_scheduled <;> simp [toggleCallbackRow, hs]

theorem queryRows_start_malformed (db : DB) (search ed : Option String)
    (su cb : Option Bool) (s : String) (h : parseDate s = none) :
    queryRows db search (some s) ed su cb = queryRows db search none ed su cb := by
  cases he : s == "" <;> simp [queryRows, he, h]

theorem queryRows_end_malformed (db : DB) (search sd : Option String)
    (su cb : Option Bool) (s : String) (h : parseDate s = none) :
    queryRows db search sd (some s) su cb = queryRows db search sd none su cb := by
  cases he : s == "" <;> simp [queryRows, he, h]

theorem parseDate_ne_empty (s : String) (x : Nat × Nat × Nat) (h : parseDate s = some x) :
    (s == "") = false := by
  cases he : s == "" with
  | false => rfl
  | true =>
    have : s = "" := eq_of_beq he
    subst this
    simp [parseDate] at h

/-! Claims. -/

/-- C5: for every store state, every combination of filters and any
pagination values, the `total` returned by the list endpoint equals the
number of rows matching the filters before pagination, so it is independent
of `skip` and `limit` (in particular of any `skip ≥ 0` and `limit` in
1..500). -/
theorem claim_C5 (db : DB) (skip limit : Nat) (search sd ed : Option String)
    (su cb : Option Bool) :
    (get_leads db skip limit search sd ed su cb).total =
      (queryRows db search sd ed su cb).length ∧
    (get_leads db skip limit search sd ed su cb).total =
      (get_leads db 0 100 search sd ed su cb).total :=
  ⟨rfl, rfl⟩

/-- C10: listing with `search` equal to the empty string is identical to
listing with no search parameter: the empty string is falsy in Python, so
the search filter is skipped exactly as when the parameter is absent. -/
theorem claim_C10 (db : DB) (skip limit : Nat) (sd ed : Option String)
    (su cb : Option Bool) :
    get_leads db skip limit (some "") sd ed su cb =
      get_leads db skip limit none sd ed su cb := by
  simp [get_leads, queryRows]

/-- C7: a `start_date` or `end_date` string that does not parse as a
well-formed `YYYY-MM-DD` calendar date is silently swallowed
(`except ValueError: pass`): the listing behaves exactly as if that date
filter were not provided. -/
theorem claim_C7 (db : DB) (skip limit : Nat) (search sd ed : Option String)
    (su cb : Option Bool) (s : String) (h : parseDate s = none) :
    get_leads db skip limit search (some s) ed su cb =
      get_leads db skip limit search none ed su cb ∧
    get_leads db skip limit search sd (some s) su cb =
      get_leads db skip limit search sd none su cb := by
  constructor
  · simp [get_leads, queryRows_start_malformed db search ed su cb s h]
  · simp [get_leads, queryRows_end_malformed db search sd su cb s h]

/-- Witness for C7 at the malformed date `2024-02-30` (well-shaped but not a
calendar date) on a concrete store. -/
theorem claim_C7_witness :
    get_leads dbJane 0 100 none (some "2024-02-30") none none none =
      get_leads dbJane 0 100 none none none none none ∧
    get_leads dbJane 0 100 none none (some "2024-02-30") none none =
      get_leads dbJane 0 100 none none none none none :=
  claim_C7 dbJane 0 100 none none none none none "2024-02-30" (by decide)

/-- C3 counterexample: the search string `_` is a SQL LIKE wildcard, so the
query matches every lead with a non-empty phone (or name), although `_`
does not occur as a substring of any of the four fields; the claim as
stated therefore fails on this store. -/
theorem claim_C3_counterexample :
    ("_" : String) ≠ "" ∧
    ¬ (queryRows dbJane (some "_") none none none none =
        dbJane.rows.filter (specSearchHit "_")) := by
  constructor
  · decide
  · decide

/-- C3, amended: for every store state and every non-empty search string
containing neither of the SQL LIKE wildcards `%` and `_`, the listing's
search filter keeps exactly the rows where the search string occurs as a
case-insensitive substring of phone, first name, last name or email. -/
theorem claim_C3 (db : DB) (s : String) (hne : s ≠ "")
    (hw : ∀ c ∈ s.data, c ≠ '%' ∧ c ≠ '_') :
    queryRows db (some s) none none none none = db.rows.filter (specSearchHit s) := by
  have he : (s == "") = false := by simpa using hne
  rw [queryRows]
  simp only [he, if_false]
  exact List.filter_congr (fun r _ => searchHit_eq_spec s hw r)

/-- Witness for the amended C3: searching `ane` on a concrete store returns
exactly the lead whose first name contains `ane`. -/
theorem claim_C3_witness :
    queryRows dbJane (some "ane") none none none none =
      dbJane.rows.filter (specSearchHit "ane") :=
  claim_C3 dbJane "ane" (by decide) (by decide)

/-- C4 counterexample: a lead submitted at 23:59:59.000001 of 2024-01-01
lies within that calendar day, but the end bound built by the query is
23:59:59.000000, so filtering with `start_date = end_date = "2024-01-01"`
drops it; the claim as stated fails on this store. -/
theorem claim_C4_counterexample :
    parseDate "2024-01-01" = some (2024, 1, 1) ∧
    ¬ (queryRows dbLate none (some "2024-01-01") (some "2024-01-01") none none =
        dbLate.rows.filter (inCalendarDay 2024 1 1)) := by
  constructor
  · decide
  · decide

/-- C4, amended: listing with `start_date` and `end_date` both equal to the
same well-formed calendar date keeps exactly the rows whose `submitted_at`
lies between 00:00:00.000000 and 23:59:59.000000 of that day inclusive; the
end bound is 23:59:59 with microsecond zero, so instants of the day's final
fractional second are excluded. -/
theorem claim_C4 (db : DB) (s : String) (y m d : Nat)
    (hp : parseDate s = some (y, m, d)) :
    queryRows db none (some s) (some s) none none =
      db.rows.filter (fun r =>
        decide (dateStartUs y m d ≤ r.submitted_at) &&
        decide (r.submitted_at ≤ dateStartUs y m d + 86399000000)) := by
  have he : (s == "") = false := parseDate_ne_empty s (y, m, d) hp
  rw [queryRows]
  simp only [he, Bool.false_eq_true, if_false, hp]
  rw [List.filter_filter]
  exact List.filter_congr (fun r _ => by rw [Bool.and_comm])

/-- Witness for the amended C4 on a store with leads at midnight, at the
last whole second, and one microsecond later: the first two are kept, the
third is dropped. -/
theorem claim_C4_witness :
    queryRows dbDay none (some "2024-01-01") (some "2024-01-01") none none =
      dbDay.rows.filter (fun r =>
        decide (dateStartUs 2024 1 1 ≤ r.submitted_at) &&
        decide (r.submitted_at ≤ dateStartUs 2024 1 1 + 86399000000)) :=
  claim_C4 dbDay "2024-01-01" 2024 1 1 (by decide)

/-- C1: if a create succeeded, then a second create whose phone normalizes
to the same digit string fails with the 400 duplicate-phone error whose
message carries the second caller's original, unnormalized phone; the error
return means no row is inserted (the store is only replaced on success). -/
theorem claim_C1 (db db1 : DB) (now1 now2 : Nat) (i1 i2 : LeadCreate) (l1 : Lead)
    (hnorm : cleanPhone i1.phone = cleanPhone i2.phone)
    (h1 : create_lead db now1 i1 = .ok (db1, l1)) :
    create_lead db1 now2 i2 =
      .error (.http 400 ("Lead with phone " ++ i2.phone ++ " already exists")) := by
  rw [create_lead] at h1
  split at h1
  · simp at h1
  · next hfind =>
    simp only [Except.ok.injEq, Prod.mk.injEq] at h1
    obtain ⟨hdb, -⟩ := h1
    subst hdb
    rw [create_lead, ← hnorm]
    rw [List.find?_append, hfind]
    simp [newLeadRow]

/-- Witness for C1: `(555) 123-4567` and `5551234567` normalize alike, so
after the first create succeeds the second fails with the duplicate error
carrying `5551234567` verbatim. -/
theorem claim_C1_witness :
    create_lead dbJane 11 (sampleInput "5551234567") =
      .error (.http 400 ("Lead with phone " ++ "5551234567" ++ " already exists")) :=
  claim_C1 emptyDB dbJane 10 11 (sampleInput "(555) 123-4567") (sampleInput "5551234567")
    (sampleLead 1 "5551234567" "Jane" "Doe" 10) (by decide) rfl

/-- C2: in every store state reachable through the mutating endpoints, every
stored lead has `signed_up_at` non-null exactly when `signed_up` is true and
`callback_scheduled_at` non-null exactly when `callback_scheduled` is true. -/
theorem claim_C2 (db : DB) (h : Reachable db) : db.rows.all leadInvB = true := by
  induction h with
  | empty => rfl
  | create db now input db2 l hr hc ih =>
    rw [create_lead] at hc
    split at hc
    · simp at hc
    · simp only [Except.ok.injEq, Prod.mk.injEq] at hc
      obtain ⟨hdb, -⟩ := hc
      subst hdb
      rw [List.all_append, Bool.and_eq_true]
      exact ⟨ih, by simp [newLeadRow, leadInvB]⟩
  | toggleS db i now db2 l hr hc ih =>
    rw [toggle_signup] at hc
    split at hc
    · simp at hc
    · simp only [Except.ok.injEq, Prod.mk.injEq] at hc
      obtain ⟨hdb, -⟩ := hc
      subst hdb
      exact replaceFirst_all leadInvB _ _ (leadInvB_toggleSignupRow now) db.rows ih
  | toggleC db i now db2 l hr hc ih =>
    rw [toggle_callback] at hc
    split at hc
    · simp at hc
    · simp only [Except.ok.injEq, Prod.mk.injEq] at hc
      obtain ⟨hdb, -⟩ := hc
      subst hdb
      exact replaceFirst_all leadInvB _ _ (leadInvB_toggleCallbackRow now) db.rows ih
  | del db i db2 n hr hc ih =>
    rw [delete_lead] at hc
    split at hc
    · simp at hc
    · simp only [Except.ok.injEq, Prod.mk.injEq] at hc
      obtain ⟨hdb, -⟩ := hc
      subst hdb
      rw [List.all_eq_true] at ih ⊢
      exact fun x hx => ih x ((db.rows.eraseP_sublist).subset hx)

/-- Witness for C2 on the reachable one-row store built by a create. -/
theorem claim_C2_witness : dbJane.rows.all leadInvB = true :=
  claim_C2 dbJane
    (Reachable.create emptyDB 10 (sampleInput "(555) 123-4567") dbJane
      (sampleLead 1 "5551234567" "Jane" "Doe" 10) Reachable.empty rfl)

/-- C6: on a stored lead with `signed_up = false`, one signup toggle yields
`signed_up = true` with `signed_up_at` set to the clock value passed at the
call (hence not earlier than the call time), and a second toggle restores
`signed_up = false` with `signed_up_at = null`. -/
theorem claim_C6 (db : DB) (i now1 now2 : Nat) (l : Lead)
    (hfind : db.rows.find? (fun r => r.id == i) = some l)
    (hsu : l.signed_up = false) :
    toggle_signup db i now1 = .ok (toggledSignupStore db i now1, toggleSignupRow now1 l) ∧
    (toggleSignupRow now1 l).signed_up = true ∧
    (toggleSignupRow now1 l).signed_up_at = some now1 ∧
    toggle_signup (toggledSignupStore db i now1) i now2 =
      .ok (toggledSignupStore (toggledSignupStore db i now1) i now2,
        toggleSignupRow now2 (toggleSignupRow now1 l)) ∧
    (toggleSignupRow now2 (toggleSignupRow now1 l)).signed_up = false ∧
    (toggleSignupRow now2 (toggleSignupRow now1 l)).signed_up_at = none := by
  have hfind2 : (toggledSignupStore db i now1).rows.find? (fun r => r.id == i) =
      some (toggleSignupRow now1 l) :=
    replaceFirst_find? (fun r => r.id == i) (toggleSignupRow now1) (fun x => rfl) db.rows l hfind
  refine ⟨?_, ?_, ?_, ?_, ?_, ?_⟩
  · rw [toggle_signup, hfind]
  · simp [toggleSignupRow, hsu]
  · simp [toggleSignupRow, hsu]
  · rw [toggle_signup, hfind2]
  · simp [toggleSignupRow, hsu]
  · simp [toggleSignupRow, hsu]

/-- Witness for C6: toggling the signup flag of the concrete lead twice, at
times 20 and 21. -/
theorem claim_C6_witness :
    toggle_signup dbJane 1 20 =
      .ok (toggledSignupStore dbJane 1 20,
        toggleSignupRow 20 (sampleLead 1 "5551234567" "Jane" "Doe" 10)) ∧
    (toggleSignupRow 20 (sampleLead 1 "5551234567" "Jane" "Doe" 10)).signed_up = true ∧
    (toggleSignupRow 20 (sampleLead 1 "5551234567" "Jane" "Doe" 10)).signed_up_at = some 20 ∧
    toggle_signup (toggledSignupStore dbJane 1 20) 1 21 =
      .ok (toggledSignupStore (toggledSignupStore dbJane 1 20) 1 21,
        toggleSignupRow 21 (toggleSignupRow 20 (sampleLead 1 "5551234567" "Jane" "Doe" 10))) ∧
    (toggleSignupRow 21 (toggleSignupRow 20
      (sampleLead 1 "5551234567" "Jane" "Doe" 10))).signed_up = false ∧
    (toggleSignupRow 21 (toggleSignupRow 20
      (sampleLead 1 "5551234567" "Jane" "Doe" 10))).signed_up_at = none :=
  claim_C6 dbJane 1 20 21 (sampleLead 1 "5551234567" "Jane" "Doe" 10) rfl rfl

/-- C9: the two toggle endpoints change only the toggled flag and its paired
timestamp on the matched row — id, phone, submitted_at, the other
flag/timestamp pair and all remaining fields are unchanged — and every
other row of the store (before and after position `k` of the matched row)
is untouched. -/
theorem claim_C9 (db db1 db2 : DB) (i now now2 k : Nat) (l r1 r2 : Lead)
    (hk : db.rows.findIdx (fun r => r.id == i) = k)
    (hl : db.rows[k]? = some l)
    (h1 : toggle_signup db i now = .ok (db1, r1))
    (h2 : toggle_callback db i now2 = .ok (db2, r2)) :
    (r1 = { l with signed_up := r1.signed_up, signed_up_at := r1.signed_up_at } ∧
     r1.id = l.id ∧ r1.phone = l.phone ∧ r1.submitted_at = l.submitted_at ∧
     r1.callback_scheduled = l.callback_scheduled ∧
     r1.callback_scheduled_at = l.callback_scheduled_at ∧
     db1.rows.take k = db.rows.take k ∧
     db1.rows.drop (k + 1) = db.rows.drop (k + 1) ∧
     db1.rows[k]? = some r1) ∧
    (r2 = { l with callback_scheduled := r2.callback_scheduled,
                   callback_scheduled_at := r2.callback_scheduled_at } ∧
     r2.id = l.id ∧ r2.phone = l.phone ∧ r2.submitted_at = l.submitted_at ∧
     r2.signed_up = l.signed_up ∧ r2.signed_up_at = l.signed_up_at ∧
     db2.rows.take k = db.rows.take k ∧
     db2.rows.drop (k + 1) = db.rows.drop (k + 1) ∧
     db2.rows[k]? = some r2) := by
  have hfind : db.rows.find? (fun r => r.id == i) = some l := by
    rw [find?_eq_getElem_findIdx, hk, hl]
  rw [toggle_signup, hfind] at h1
  rw [toggle_callback, hfind] at h2
  simp only [Except.ok.injEq, Prod.mk.injEq] at h1 h2
  obtain ⟨hdb1, hr1⟩ := h1
  obtain ⟨hdb2, hr2⟩ := h2
  subst hdb1 hr1 hdb2 hr2
  subst hk
  refine ⟨⟨rfl, rfl, rfl, rfl, rfl, rfl, ?_, ?_, ?_⟩, ⟨rfl, rfl, rfl, rfl, rfl, rfl, ?_, ?_, ?_⟩⟩
  · exact replaceFirst_take (fun r => r.id == i) (toggleSignupRow now) db.rows
  · exact replaceFirst_drop (fun r => r.id == i) (toggleSignupRow now) db.rows
  · exact replaceFirst_getElem (fun r => r.id == i) (toggleSignupRow now) db.rows l hfind
  · exact replaceFirst_take (fun r => r.id == i) (toggleCallbackRow now2) db.rows
  · exact replaceFirst_drop (fun r => r.id == i) (toggleCallbackRow now2) db.rows
  · exact replaceFirst_getElem (fun r => r.id == i) (toggleCallbackRow now2) db.rows l hfind

/-- Witness for C9: toggling lead 2 of a two-row store (at position 1)
leaves the first row and all untoggled fields unchanged. -/
theorem claim_C9_witness :
    (toggleSignupRow 30 leadSue =
       { leadSue with signed_up := (toggleSignupRow 30 leadSue).signed_up,
                      signed_up_at := (toggleSignupRow 30 leadSue).signed_up_at } ∧
     (toggleSignupRow 30 leadSue).id = leadSue.id ∧
     (toggleSignupRow 30 leadSue).phone = leadSue.phone ∧
     (toggleSignupRow 30 leadSue).submitted_at = leadSue.submitted_at ∧
     (toggleSignupRow 30 leadSue).callback_scheduled = leadSue.callback_scheduled ∧
     (toggleSignupRow 30 leadSue).callback_scheduled_at = leadSue.callback_scheduled_at ∧
     (toggledSignupStore dbTwo 2 30).rows.take 1 = dbTwo.rows.take 1 ∧
     (toggledSignupStore dbTwo 2 30).rows.drop 2 = dbTwo.rows.drop 2 ∧
     (toggledSignupStore dbTwo 2 30).rows[1]? = some (toggleSignupRow 30 leadSue)) ∧
    (toggleCallbackRow 31 leadSue =
       { leadSue with callback_scheduled := (toggleCallbackRow 31 leadSue).callback_scheduled,
                      callback_scheduled_at := (toggleCallbackRow 31 leadSue).callback_scheduled_at } ∧
     (toggleCallbackRow 31 leadSue).id = leadSue.id ∧
     (toggleCallbackRow 31 leadSue).phone = leadSue.phone ∧
     (toggleCallbackRow 31 leadSue).submitted_at = leadSue.submitted_at ∧
     (toggleCallbackRow 31 leadSue).signed_up = leadSue.signed_up ∧
     (toggleCallbackRow 31 leadSue).signed_up_at = leadSue.signed_up_at ∧
     (toggledCallbackStore dbTwo 2 31).rows.take 1 = dbTwo.rows.take 1 ∧
     (toggledCallbackStore dbTwo 2 31).rows.drop 2 = dbTwo.rows.drop 2 ∧
     (toggledCallbackStore dbTwo 2 31).rows[1]? = some (toggleCallbackRow 31 leadSue)) :=
  claim_C9 dbTwo (toggledSignupStore dbTwo 2 30) (toggledCallbackStore dbTwo 2 31)
    2 30 31 1 leadSue (toggleSignupRow 30 leadSue) (toggleCallbackRow 31 leadSue)
    rfl rfl rfl rfl

/-- C8 counterexample: creating a lead whose phone has no digit characters
stores the empty string as its normalized phone, and the resulting store is
reachable; the phone check on another all-non-digit input then normalizes to
the empty string and finds that row, returning `exists = true` — so an empty
normalized phone does not always match nothing. -/
theorem claim_C8_counterexample :
    Reachable dbNoDigits ∧ cleanPhone "x" = "" ∧
    (check_phone dbNoDigits "x").exists_ = true :=
  ⟨Reachable.create emptyDB 4 (sampleInput "abc") dbNoDigits
      (sampleLead 1 "" "Jane" "Doe" 4) Reachable.empty rfl,
    by decide, by decide⟩

/-- C8, amended: in every reachable store state none of whose rows has an
empty stored phone, the phone check on any input normalizing to the empty
string succeeds with `exists = false`. -/
theorem claim_C8 (db : DB) (p : String) (_hr : Reachable db)
    (hph : ∀ r ∈ db.rows, r.phone ≠ "") (h : cleanPhone p = "") :
    (check_phone db p).exists_ = false := by
  rw [check_phone, h]
  have : db.rows.find? (fun r => r.phone == "") = none := by
    rw [List.find?_eq_none]
    intro r hrmem
    simpa using hph r hrmem
  rw [this]

/-- Witness for the amended C8 on the reachable one-row store whose stored
phone is non-empty: the input `()` normalizes to the empty string and is not
found. -/
theorem claim_C8_witness : (check_phone dbJane "()").exists_ = false :=
  claim_C8 dbJane "()"
    (Reachable.create emptyDB 10 (sampleInput "(555) 123-4567") dbJane
      (sampleLead 1 "5551234567" "Jane" "Doe" 10) Reachable.empty rfl)
    (by decide) (by decide)
